import Mathlib

/-!
Verification of the parts-search-saas SDK request-execution pipeline.

Shallow embedding of the strategy-composition pipeline of `@partsy/sdk`:
the retry strategies (`RetryStrategies.ts`), the authentication strategies,
the `DateTransformer` (data transformers file), and the orchestrator loop
`PartsAPIClient.executeRequest` (`PartsAPIClient.ts`).

JavaScript values appearing in decoded response bodies are modelled by the
inductive type `JsValue`; thrown errors by `JsError`.  Numbers are modelled as
integers (every number the pipeline computes with is a non-negative integer).
-/

/-- The JavaScript value universe needed by the pipeline: `null`, booleans,
numbers (modelled as integers), strings, `Date` objects (carrying
`some msSinceEpoch`, or `none` for an Invalid Date), arrays, and plain objects
(ordered association lists of string keys, unique by JS object semantics). -/
inductive JsValue where
  | vNull : JsValue
  | vBool (b : Bool) : JsValue
  | vNum (n : Int) : JsValue
  | vStr (s : String) : JsValue
  | vDate (ms : Option Int) : JsValue
  | vArr (items : List JsValue) : JsValue
  | vObj (fields : List (String × JsValue)) : JsValue
deriving Repr

/-- Errors thrown inside the pipeline (`errors.ts` plus engine exceptions):
`APIError` (with its optional numeric `status` and `statusText`),
`NetworkError`, and any other `Error` such as the `SyntaxError` thrown by
`response.json()` on a JSON decode failure. -/
inductive JsError where
  | apiError (message : String) (status : Option Nat) (statusText : Option String) : JsError
  | networkError (message : String) : JsError
  | otherError (message : String) : JsError
deriving Repr, DecidableEq

namespace JsValue

/-- JS truthiness combined with a string type test: models the guard
`result[field] && typeof result[field] === 'string'` in
`DateTransformer.transform` (a truthy string is a non-empty string). -/
def isTruthyString : JsValue → Bool
  | vStr s => !s.isEmpty
  | _ => false

/-- Models the guard `value && typeof value === 'object'`: `typeof` is
`'object'` for `null`, plain objects, arrays and `Date`s, but `null` is
falsy, so exactly `Date`s, arrays and objects pass. -/
def isTruthyObject : JsValue → Bool
  | vDate _ => true
  | vArr _ => true
  | vObj _ => true
  | _ => false

/-- The string payload of a string value (used only after `isTruthyString`). -/
def asString : JsValue → String
  | vStr s => s
  | _ => ""

end JsValue

/-- Digit test on a list of characters, for the date parser. -/
def allDigits (cs : List Char) : Bool := cs.all Char.isDigit

/-- Decimal value of a digit string. -/
def natOfDigits (cs : List Char) : Nat :=
  cs.foldl (fun a c => a * 10 + (c.toNat - 48)) 0

/-- Days from the Unix epoch to the civil date y-m-d (proleptic Gregorian);
the standard era-based algorithm, with truncating integer division exactly as
in the reference formulation. -/
def daysFromCivil (y : Int) (m d : Nat) : Int :=
  let ys : Int := if m ≤ 2 then y - 1 else y
  let era : Int := (if 0 ≤ ys then ys else ys - 399) / 400
  let yoe : Int := ys - era * 400
  let mp : Nat := (m + 9) % 12
  let doy : Nat := (153 * mp + 2) / 5 + d - 1
  let doe : Int := yoe * 365 + yoe / 4 - yoe / 100 + (doy : Int)
  era * 146097 + doe - 719468

/-- Models `new Date(string)` of the JavaScript engine on the ISO-8601
subset `YYYY-MM-DDThh:mm:ssZ` that the SDK exchanges with its backend:
`some ms` for a parseable timestamp, `none` for the Invalid Date that
`new Date` yields on any other input (note `new Date(string)` never throws,
so the `try`/`catch` around it in `DateTransformer.transform` is inert).
The parsed value is unobservable downstream (see `transformedDate`). -/
def jsDateParse (s : String) : Option Int :=
  match s.data with
  | [y1, y2, y3, y4, '-', m1, m2, '-', d1, d2, 'T',
     h1, h2, ':', n1, n2, ':', s1, s2, 'Z'] =>
    if allDigits [y1, y2, y3, y4, m1, m2, d1, d2, h1, h2, n1, n2, s1, s2] then
      let y := natOfDigits [y1, y2, y3, y4]
      let mo := natOfDigits [m1, m2]
      let da := natOfDigits [d1, d2]
      let hh := natOfDigits [h1, h2]
      let mi := natOfDigits [n1, n2]
      let ss := natOfDigits [s1, s2]
      if 1 ≤ mo ∧ mo ≤ 12 ∧ 1 ≤ da ∧ da ≤ 31 ∧ hh ≤ 23 ∧ mi ≤ 59 ∧ ss ≤ 59 then
        some ((daysFromCivil (y : Int) mo da * 86400 + (hh * 3600 + mi * 60 + ss : Nat)) * 1000)
      else none
    else none
  | _ => none

/-- The fixed date field names of `DateTransformer`. -/
def dateFields : List String := ["createdAt", "updatedAt", "timestamp", "date"]

/-- Transform of a freshly created `Date` by the recursive entries pass of
`DateTransformer.transform`: a `Date` is a truthy object, so the pass calls
`transform` on it; there `\x7b...date\x7d` spreads the `Date` into a plain object
with no own enumerable properties, i.e. the empty object.  The parsed date
value is therefore discarded. -/
def transformedDate (_ms : Option Int) : JsValue := JsValue.vObj []

mutual

/-- `DateTransformer.transform`: primitives pass through (`obj === null` or
`typeof obj !== 'object'`); arrays are mapped; a `Date` is spread into the
empty plain object; for a plain object, the date-fields pass replaces each
truthy string value of a designated field by `new Date(value)`, and the
entries pass then recurses into every truthy object value (including the
`Date`s the first pass just created). -/
def transform : JsValue → JsValue
  | .vNull => .vNull
  | .vBool b => .vBool b
  | .vNum n => .vNum n
  | .vStr s => .vStr s
  | .vDate _ => .vObj []
  | .vArr items => .vArr (transformList items)
  | .vObj fields => .vObj (transformFields fields)

/-- The array case of `DateTransformer.transform`:
`obj.map(item => this.transform(item))`. -/
def transformList : List JsValue → List JsValue
  | [] => []
  | item :: rest => transform item :: transformList rest

/-- The object case of `DateTransformer.transform`, fused per entry (the two
source passes touch each key independently, so per-entry fusion is
semantics-preserving for the unique keys of a JS object): a designated date
field holding a truthy string becomes `new Date(...)` in the first pass and
is then spread to `\x7b\x7d` by the entries pass; every other truthy object value is
transformed recursively; all remaining values are untouched. -/
def transformFields : List (String × JsValue) → List (String × JsValue)
  | [] => []
  | (k, v) :: rest =>
    if dateFields.contains k && v.isTruthyString then
      (k, transformedDate (jsDateParse v.asString)) :: transformFields rest
    else
      (k, if v.isTruthyObject then transform v else v) :: transformFields rest

end

/-- `IdentityTransformer.transform`. -/
def identityTransform (data : JsValue) : JsValue := data

/-! ## Retry strategies (`RetryStrategies.ts`) -/

/-- The `RetryStrategy` contract (`contracts/index.ts`): `shouldRetry` takes
the attempt number just completed and the thrown error; `getRetryDelay` takes
the attempt number; `getMaxAttempts` is a constant of the instance. -/
structure RetryStrategy where
  shouldRetry : Nat → JsError → Bool
  getRetryDelay : Nat → Nat
  getMaxAttempts : Nat

/-- The shared `shouldRetry` body of the exponential-backoff and fixed-delay
strategies: `if (attempt >= maxAttempts) return false;` then
`if (error instanceof APIError && error.status) return error.status >= 500;`
(a status of 0 is falsy in JS and skips the branch) and `return true`
otherwise. -/
def retryShouldRetry (maxAttempts attempt : Nat) (error : JsError) : Bool :=
  if maxAttempts ≤ attempt then false
  else
    match error with
    | .apiError _ (some s) _ => if s = 0 then true else decide (500 ≤ s)
    | _ => true

/-- `ExponentialBackoffRetryStrategy(maxAttempts, baseDelay, maxDelay)`:
delay for attempt `a` is `Math.min(baseDelay * Math.pow(2, attempt - 1),
maxDelay)` (numbers modelled as naturals; the source values are non-negative
integers). -/
def ExponentialBackoffRetryStrategy (maxAttempts baseDelay maxDelay : Nat) :
    RetryStrategy where
  shouldRetry := retryShouldRetry maxAttempts
  getRetryDelay attempt := min (baseDelay * 2 ^ (attempt - 1)) maxDelay
  getMaxAttempts := maxAttempts

/-- `NoRetryStrategy`: never retries, delay 0, one attempt. -/
def NoRetryStrategy : RetryStrategy where
  shouldRetry _ _ := false
  getRetryDelay _ := 0
  getMaxAttempts := 1

/-- `FixedDelayRetryStrategy(maxAttempts, delay)`: same `shouldRetry` rule as
the exponential strategy, constant delay. -/
def FixedDelayRetryStrategy (maxAttempts delay : Nat) : RetryStrategy where
  shouldRetry := retryShouldRetry maxAttempts
  getRetryDelay _ := delay
  getMaxAttempts := maxAttempts

/-! ## Authentication strategies -/

/-- Header maps, as ordered association lists with the unique keys of a JS
object. -/
abbrev Headers := List (String × String)

/-- First-match lookup in a header map. -/
def lookupHeader (hs : Headers) (key : String) : Option String :=
  match hs with
  | [] => none
  | p :: rest => if p.1 = key then some p.2 else lookupHeader rest key

/-- JS object spread update `\x7b...headers, [key]: val\x7d`: the result keeps the
original key order, with the existing entry for `key` overwritten in place,
or a new entry appended at the end. -/
def setHeader (hs : Headers) (key val : String) : Headers :=
  if hs.any (fun p => p.1 = key) then
    hs.map (fun p => if p.1 = key then (key, val) else p)
  else hs ++ [(key, val)]

/-- `NoAuthStrategy.authenticate`: returns the header map unchanged. -/
def NoAuthStrategy (headers : Headers) : Headers := headers

/-- `BearerTokenAuthStrategy.authenticate`. -/
def BearerTokenAuthStrategy (token : String) (headers : Headers) : Headers :=
  setHeader headers "Authorization" ("Bearer " ++ token)

/-- `ApiKeyAuthStrategy.authenticate` with its configurable header name. -/
def ApiKeyAuthStrategy (apiKey headerName : String) (headers : Headers) :
    Headers :=
  setHeader headers headerName apiKey

/-- The base64 digit alphabet. -/
def base64Table : String :=
  "ABCDEFGHIJKLMNOPQRSTUVWXYZabcdefghijklmnopqrstuvwxyz0123456789+/"

/-- Digit `n` of the base64 alphabet (the default is never reached: every
argument passed is below 64). -/
def b64Char (n : Nat) : Char := base64Table.data.getD n 'A'

/-- Base64 of a byte list, with `=` padding. -/
def base64encode : List Nat → String
  | [] => ""
  | [b1] => String.mk [b64Char (b1 / 4), b64Char (b1 % 4 * 16), '=', '=']
  | [b1, b2] =>
    String.mk [b64Char (b1 / 4), b64Char (b1 % 4 * 16 + b2 / 16),
      b64Char (b2 % 16 * 4), '=']
  | b1 :: b2 :: b3 :: rest =>
    String.mk [b64Char (b1 / 4), b64Char (b1 % 4 * 16 + b2 / 16),
      b64Char (b2 % 16 * 4 + b3 / 64), b64Char (b3 % 64)] ++ base64encode rest

/-- The `btoa` platform function: defined only on strings whose characters
are all at most U+00FF (it throws `InvalidCharacterError` otherwise, which
`none` models), and base64-encodes the corresponding Latin-1 bytes. -/
def btoa (s : String) : Option String :=
  if s.data.all (fun c => c.toNat ≤ 255) then
    some (base64encode (s.data.map Char.toNat))
  else none

/-- `BasicAuthStrategy.authenticate`: computes
`btoa(username + ":" + password)` on every call; `none` models the
`InvalidCharacterError` escaping `authenticate` when a credential character
is above U+00FF. -/
def BasicAuthStrategy (username password : String) (headers : Headers) :
    Option Headers :=
  (btoa (username ++ ":" ++ password)).map
    (fun credentials => setHeader headers "Authorization" ("Basic " ++ credentials))

/-! ## Percent-encoding (`encodeURIComponent`) -/

/-- The mark characters `encodeURIComponent` leaves unescaped besides
alphanumerics: `- _ . ! ~ *` then the single-quote character (written via its
code point 39) and the parentheses. -/
def uriMarks : List Char :=
  ['-', '_', '.', '!', '~', '*', Char.ofNat 39, '(', ')']

/-- Characters left unescaped by `encodeURIComponent`: ASCII alphanumerics
and the marks. -/
def isUnescapedUriChar (c : Char) : Bool :=
  (c.toNat ≥ 65 && c.toNat ≤ 90) || (c.toNat ≥ 97 && c.toNat ≤ 122) ||
    (c.toNat ≥ 48 && c.toNat ≤ 57) || uriMarks.contains c

/-- Uppercase hexadecimal digit `n` (the default is never reached: every
argument passed is below 16). -/
def hexDigitChar (n : Nat) : Char := "0123456789ABCDEF".data.getD n '0'

/-- UTF-8 bytes of a Unicode scalar value. -/
def utf8Bytes (c : Char) : List Nat :=
  let v := c.toNat
  if v < 128 then [v]
  else if v < 2048 then [192 + v / 64, 128 + v % 64]
  else if v < 65536 then [224 + v / 4096, 128 + v / 64 % 64, 128 + v % 64]
  else [240 + v / 262144, 128 + v / 4096 % 64, 128 + v / 64 % 64, 128 + v % 64]

/-- Percent-escape of one byte: `%` followed by two uppercase hex digits. -/
def percentEncodeByte (b : Nat) : List Char :=
  ['%', hexDigitChar (b / 16), hexDigitChar (b % 16)]

/-- The `encodeURIComponent` platform function: unescaped characters pass
through, every other character is replaced by the percent-escapes of its
UTF-8 bytes.  (Lean characters are Unicode scalar values, so the lone
surrogates on which the platform function throws are not representable.) -/
def encodeURIComponent (s : String) : String :=
  String.mk (s.data.flatMap (fun c =>
    if isUnescapedUriChar c then [c]
    else (utf8Bytes c).flatMap percentEncodeByte))

/-! ## The orchestrator (`PartsAPIClient.executeRequest`) -/

/-- The request descriptor handed to the transport
(`HttpRequestOptions` of `contracts/index.ts`; the timeout and signal fields
play no role in the modelled control flow). -/
structure HttpRequestOptions where
  url : String
  method : String
  headers : Headers
  body : Option JsValue
deriving Repr

/-- The response descriptor produced by the transport
(`HttpResponse` of `contracts/index.ts`, headers omitted: the orchestrator
never reads them). -/
structure HttpResponse where
  status : Nat
  statusText : String
  data : JsValue
deriving Repr

/-- Outcome of one `httpClient.request` call: a resolved response, or a
thrown error (a `NetworkError`, or e.g. the `SyntaxError` of a JSON decode
failure inside `FetchHttpClient.request`). -/
inductive TransportOutcome where
  | ok (resp : HttpResponse) : TransportOutcome
  | throwErr (e : JsError) : TransportOutcome
deriving Repr

/-- `PartsAPIClientConfig`: the four collaborators plus the base URL.  The
transport is modelled as a trace: the outcome of the single network call made
on a given attempt number, for the options built on that attempt. -/
structure PartsAPIClientConfig where
  baseUrl : String
  httpClient : Nat → HttpRequestOptions → TransportOutcome
  retryStrategy : RetryStrategy
  authStrategy : Headers → Headers
  dataTransformer : JsValue → JsValue

/-- Result of one call to `executeRequest`: the returned value or the thrown
error, together with the number of transport invocations made and the list of
delays slept (in order). -/
structure ExecOutcome where
  result : Except JsError JsValue
  attemptsMade : Nat
  sleeps : List Nat
deriving Repr

/-- The message built by `executeRequest` for a status of 400 or above. -/
def mkApiErrorMessage (status : Nat) (statusText : String) : String :=
  "API request failed: " ++ toString status ++ " " ++ statusText

/-- The `try` block body of one loop iteration of `executeRequest`: build the
options (headers from `authStrategy.authenticate(\x7b\x7d)` on a fresh empty map),
invoke the transport, throw an `APIError` on `status >= 400`, otherwise
return the transformed response data. -/
def attemptOnce (cfg : PartsAPIClientConfig) (method path : String)
    (body : Option JsValue) (attempt : Nat) : Except JsError JsValue :=
  let options : HttpRequestOptions :=
    { url := cfg.baseUrl ++ path, method := method,
      headers := cfg.authStrategy [], body := body }
  match cfg.httpClient attempt options with
  | .throwErr e => .error e
  | .ok resp =>
    if 400 ≤ resp.status then
      .error (.apiError (mkApiErrorMessage resp.status resp.statusText)
        (some resp.status) (some resp.statusText))
    else .ok (cfg.dataTransformer resp.data)

/-- The `do`/`while` loop of `executeRequest`, entered at a given attempt
number: on success return; on a caught error, rethrow it if
`shouldRetry(attempt, lastError)` is false, otherwise sleep
`getRetryDelay(attempt)`, increment the counter, and loop again while
`attempt <= getMaxAttempts()`; when the loop condition fails the last error
is rethrown (note the final sleep still happens in that case, before the
condition is tested). -/
def executeRequestLoop (cfg : PartsAPIClientConfig) (method path : String)
    (body : Option JsValue) (attempt : Nat) : ExecOutcome :=
  match attemptOnce cfg method path body attempt with
  | .ok v => { result := .ok v, attemptsMade := 1, sleeps := [] }
  | .error e =>
    if cfg.retryStrategy.shouldRetry attempt e then
      let d := cfg.retryStrategy.getRetryDelay attempt
      if h : attempt + 1 ≤ cfg.retryStrategy.getMaxAttempts then
        let rest := executeRequestLoop cfg method path body (attempt + 1)
        { result := rest.result, attemptsMade := rest.attemptsMade + 1,
          sleeps := d :: rest.sleeps }
      else { result := .error e, attemptsMade := 1, sleeps := [d] }
    else { result := .error e, attemptsMade := 1, sleeps := [] }
termination_by cfg.retryStrategy.getMaxAttempts + 1 - attempt
decreasing_by omega

/-- `PartsAPIClient.executeRequest`: the loop starting at attempt 1. -/
def executeRequest (cfg : PartsAPIClientConfig) (method path : String)
    (body : Option JsValue) : ExecOutcome :=
  executeRequestLoop cfg method path body 1

/-- `PartsAPIClient.getPartById`. -/
def getPartById (cfg : PartsAPIClientConfig) (id : String) : ExecOutcome :=
  executeRequest cfg "GET" ("/parts/" ++ encodeURIComponent id) none

/-- `PartsAPIClient.updatePart`. -/
def updatePart (cfg : PartsAPIClientConfig) (id : String) (dto : JsValue) :
    ExecOutcome :=
  executeRequest cfg "PUT" ("/parts/" ++ encodeURIComponent id) (some dto)

/-- `PartsAPIClient.deletePart`. -/
def deletePart (cfg : PartsAPIClientConfig) (id : String) : ExecOutcome :=
  executeRequest cfg "DELETE" ("/parts/" ++ encodeURIComponent id) none

/-! ## Concrete scenario configurations used by the claim analyses -/

/-- The URL characters whose appearance in a path segment would change the
route or start a query string. -/
def urlReservedChars : List Char := ['/', '?', '&', '=', '#', ' ']

/-- Transport trace of the C1 scenario: three consecutive 503 responses, then
a 200 response. -/
def c1Transport : Nat → HttpRequestOptions → TransportOutcome := fun n _ =>
  if n ≤ 3 then
    .ok ⟨503, "Service Unavailable", .vObj [("error", .vStr "unavailable")]⟩
  else
    .ok ⟨200, "OK", .vObj [("id", .vStr "abc"),
      ("createdAt", .vStr "2024-01-01T00:00:00Z")]⟩

/-- Orchestrator of the C1 scenario: exponential backoff with maxAttempts 3,
baseDelay 1000, maxDelay 10000, and the date transformer. -/
def c1Config : PartsAPIClientConfig :=
  ⟨"https://api.example.com", c1Transport,
    ExponentialBackoffRetryStrategy 3 1000 10000, NoAuthStrategy, transform⟩

/-- Transport trace of the C2 scenario: every attempt succeeds with status
200 and a part record carrying an ISO createdAt string. -/
def c2Transport : Nat → HttpRequestOptions → TransportOutcome := fun _ _ =>
  .ok ⟨200, "OK", .vObj [("id", .vStr "abc"),
    ("createdAt", .vStr "2024-01-01T00:00:00Z")]⟩

/-- Orchestrator of the C2 scenario. -/
def c2Config : PartsAPIClientConfig :=
  ⟨"https://api.example.com", c2Transport,
    ExponentialBackoffRetryStrategy 3 1000 10000, NoAuthStrategy, transform⟩

/-- Transport trace of the C3 scenario: the first attempt throws the
`SyntaxError` of a JSON decode failure inside `FetchHttpClient.request`
(`response.json()` on a structurally broken body), later attempts succeed. -/
def c3Transport : Nat → HttpRequestOptions → TransportOutcome := fun n _ =>
  if n = 1 then .throwErr (.otherError "SyntaxError: Unexpected end of JSON input")
  else .ok ⟨200, "OK", .vObj []⟩

/-- Orchestrator of the C3 scenario. -/
def c3Config : PartsAPIClientConfig :=
  ⟨"https://api.example.com", c3Transport,
    ExponentialBackoffRetryStrategy 3 1000 10000, NoAuthStrategy, transform⟩

/-- Orchestrator of the C8 counterexample: an exponential-backoff strategy
constructed with maxAttempts 0, against a transport that always answers
503. -/
def c8Config : PartsAPIClientConfig :=
  ⟨"https://api.example.com", fun _ _ => .ok ⟨503, "Service Unavailable", .vNull⟩,
    ExponentialBackoffRetryStrategy 0 1000 10000, NoAuthStrategy, transform⟩

/-! ## Claim C5: strategies never retry a 4xx status failure -/

/-- Claim C5: for every attempt number and every failure carrying an HTTP
status in [400, 499], `shouldRetry` of both the fixed-delay and the
exponential-backoff retry strategy returns false, so a 4xx status failure is
never retried. -/
theorem c5_no_retry_on_4xx (m b M d a s : Nat) (msg : String) (st : Option String)
    (h400 : 400 ≤ s) (h499 : s ≤ 499) :
    (ExponentialBackoffRetryStrategy m b M).shouldRetry a
      (.apiError msg (some s) st) = false ∧
    (FixedDelayRetryStrategy m d).shouldRetry a
      (.apiError msg (some s) st) = false := by
  have h0 : ¬s = 0 := by omega
  have h5 : ¬500 ≤ s := by omega
  constructor <;>
    simp [ExponentialBackoffRetryStrategy, FixedDelayRetryStrategy,
      retryShouldRetry, h0, h5]

/-- Witness for C5 at a concrete 404 failure on attempt 1. -/
theorem c5_no_retry_on_4xx_witness :
    (ExponentialBackoffRetryStrategy 3 1000 10000).shouldRetry 1
      (.apiError "API request failed: 404 Not Found" (some 404) (some "Not Found")) = false ∧
    (FixedDelayRetryStrategy 3 1000).shouldRetry 1
      (.apiError "API request failed: 404 Not Found" (some 404) (some "Not Found")) = false :=
  c5_no_retry_on_4xx 3 1000 10000 1000 1 404 "API request failed: 404 Not Found"
    (some "Not Found") (by decide) (by decide)

/-! ## Claim C6: retry delay formula, monotonicity, cap -/

/-- Claim C6: for every attempt number k at least 1, the exponential-backoff
getRetryDelay equals min(maxDelay, baseDelay * 2^(k-1)), is monotonically
non-decreasing in k, and never exceeds the configured maximum delay; the
fixed-delay getRetryDelay is constant in k. -/
theorem c6_retry_delay_formula (m b M d k k1 k2 : Nat)
    (hk : 1 ≤ k) (hk1 : 1 ≤ k1) (h12 : k1 ≤ k2) :
    (ExponentialBackoffRetryStrategy m b M).getRetryDelay k = min M (b * 2 ^ (k - 1)) ∧
    (ExponentialBackoffRetryStrategy m b M).getRetryDelay k1 ≤
      (ExponentialBackoffRetryStrategy m b M).getRetryDelay k2 ∧
    (ExponentialBackoffRetryStrategy m b M).getRetryDelay k ≤ M ∧
    (FixedDelayRetryStrategy m d).getRetryDelay k = d := by
  refine ⟨Nat.min_comm _ _, ?_, Nat.min_le_right _ _, rfl⟩
  exact min_le_min
    (Nat.mul_le_mul (Nat.le_refl b) (Nat.pow_le_pow_right (by omega) (by omega)))
    (Nat.le_refl M)

/-- Witness for C6 at k = 1, k1 = 1, k2 = 2 with the default configuration. -/
theorem c6_retry_delay_formula_witness :
    (ExponentialBackoffRetryStrategy 3 1000 10000).getRetryDelay 1 =
      min 10000 (1000 * 2 ^ (1 - 1)) ∧
    (ExponentialBackoffRetryStrategy 3 1000 10000).getRetryDelay 1 ≤
      (ExponentialBackoffRetryStrategy 3 1000 10000).getRetryDelay 2 ∧
    (ExponentialBackoffRetryStrategy 3 1000 10000).getRetryDelay 1 ≤ 10000 ∧
    (FixedDelayRetryStrategy 3 1000).getRetryDelay 1 = 1000 :=
  c6_retry_delay_formula 3 1000 10000 1000 1 1 2 (by decide) (by decide) (by decide)

/-! ## Claim C3: decode failures and the retry strategies -/

/-- Counterexample to claim C3: a JSON decode failure (a thrown error that is
not an APIError) on attempt 1 under the exponential-backoff strategy is NOT
surfaced immediately: `executeRequest` retries, makes a second transport
attempt after a 1000 ms sleep, and returns the second response. -/
theorem c3_decode_failure_counterexample :
    (executeRequest c3Config "GET" "/parts/abc" none).attemptsMade = 2 ∧
    (executeRequest c3Config "GET" "/parts/abc" none).sleeps = [1000] ∧
    (executeRequest c3Config "GET" "/parts/abc" none).result = .ok (.vObj []) := by
  refine ⟨?_, ?_, ?_⟩ <;>
    simp [executeRequest, executeRequestLoop, attemptOnce, c3Config, c3Transport,
      ExponentialBackoffRetryStrategy, retryShouldRetry, NoAuthStrategy,
      transform, transformFields]

/-- Claim C3 as amended: a decode failure is not an `APIError`, so
`shouldRetry` treats it like a transport failure: the no-retry strategy
surfaces it immediately, while the fixed-delay and exponential-backoff
strategies retry it exactly while the attempt number is below the configured
maximum (surfacing it only on budget exhaustion). -/
theorem c3_decode_failure_amended (m b M d a : Nat) (msg : String) :
    NoRetryStrategy.shouldRetry a (.otherError msg) = false ∧
    (ExponentialBackoffRetryStrategy m b M).shouldRetry a (.otherError msg) =
      decide (a < m) ∧
    (FixedDelayRetryStrategy m d).shouldRetry a (.otherError msg) =
      decide (a < m) := by
  refine ⟨rfl, ?_, ?_⟩ <;>
  · simp only [ExponentialBackoffRetryStrategy, FixedDelayRetryStrategy,
      retryShouldRetry]
    rcases Nat.lt_or_ge a m with h | h
    · simp [Nat.not_le.mpr h, h]
    · simp [h, Nat.not_lt.mpr h]

/-! ## Claim C7: idempotence of the date transformer -/

/-- Transforming a truthy object value yields a truthy object value
(a Date becomes the empty plain object, arrays stay arrays, objects stay
objects). -/
theorem transform_isTruthyObject (v : JsValue) (h : v.isTruthyObject = true) :
    (transform v).isTruthyObject = true := by
  cases v <;> simp_all [transform, JsValue.isTruthyObject]

/-- Transforming a truthy object value never yields a string, so a
transformed date field is never re-matched by the string test of the
date-fields pass. -/
theorem transform_not_truthyString (v : JsValue) (h : v.isTruthyObject = true) :
    (transform v).isTruthyString = false := by
  cases v <;> simp_all [transform, JsValue.isTruthyObject, JsValue.isTruthyString]

mutual

/-- Applying `DateTransformer.transform` twice equals applying it once
(value case). -/
theorem transform_idem_aux : ∀ v : JsValue, transform (transform v) = transform v
  | .vNull => by simp [transform]
  | .vBool b => by simp [transform]
  | .vNum n => by simp [transform]
  | .vStr s => by simp [transform]
  | .vDate ms => by simp [transform, transformFields]
  | .vArr items => by simp [transform]; exact transformList_idem_aux items
  | .vObj fields => by simp [transform]; exact transformFields_idem_aux fields

/-- Applying `DateTransformer.transform` twice equals applying it once
(array items case). -/
theorem transformList_idem_aux :
    ∀ xs : List JsValue, transformList (transformList xs) = transformList xs
  | [] => by simp [transformList]
  | x :: rest => by
    simp only [transformList, List.cons.injEq]
    exact ⟨transform_idem_aux x, transformList_idem_aux rest⟩

/-- Applying `DateTransformer.transform` twice equals applying it once
(object entries case). -/
theorem transformFields_idem_aux :
    ∀ fs : List (String × JsValue), transformFields (transformFields fs) = transformFields fs
  | [] => by simp [transformFields]
  | (k, v) :: rest => by
    have ih := transformFields_idem_aux rest
    by_cases hg : k ∈ dateFields ∧ v.isTruthyString = true
    · have e1 : (JsValue.vObj []).isTruthyString = false := rfl
      have e2 : (JsValue.vObj []).isTruthyObject = true := rfl
      have e3 : transform (JsValue.vObj []) = JsValue.vObj [] := by
        simp [transform, transformFields]
      simp [transformFields, hg.1, hg.2, transformedDate, e1, e2, e3, ih]
    · by_cases hv : v.isTruthyObject = true
      · have hns := transform_not_truthyString v hv
        have hno := transform_isTruthyObject v hv
        have hiv := transform_idem_aux v
        simp [transformFields, hg, hv, hns, hno, hiv, ih]
      · simp [transformFields, hg, hv, ih]

end

/-- Claim C7: the date transformer is idempotent: for every value x,
transform(transform(x)) yields the same result as transform(x). -/
theorem c7_transform_idempotent (v : JsValue) :
    transform (transform v) = transform v :=
  transform_idem_aux v

/-! ## Claim C8: bound on transport invocations -/

/-- The loop entered at a given attempt number makes at most
max(1, maxAttempts + 1 - attempt) transport invocations: the do/while body
always runs once, and every further iteration requires
attempt + 1 <= getMaxAttempts(). -/
theorem executeRequestLoop_attempts_le (cfg : PartsAPIClientConfig)
    (method path : String) (body : Option JsValue) (attempt : Nat) :
    (executeRequestLoop cfg method path body attempt).attemptsMade ≤
      max 1 (cfg.retryStrategy.getMaxAttempts + 1 - attempt) := by
  unfold executeRequestLoop
  cases attemptOnce cfg method path body attempt with
  | ok v => simp
  | error e =>
    by_cases hr : cfg.retryStrategy.shouldRetry attempt e = true
    · by_cases hm : attempt + 1 ≤ cfg.retryStrategy.getMaxAttempts
      · have ih := executeRequestLoop_attempts_le cfg method path body (attempt + 1)
        simp only [hr, if_pos, hm, dif_pos]
        simp only [ExecOutcome.attemptsMade] at ih ⊢
        omega
      · simp [hr, hm]
    · simp [hr]
termination_by cfg.retryStrategy.getMaxAttempts + 1 - attempt
decreasing_by omega

/-- Counterexample to claim C8: the `do`/`while` loop runs its body before
testing the condition, so an exponential-backoff strategy constructed with
maxAttempts = 0 still gets one transport invocation, exceeding its declared
maximum of 0. -/
theorem c8_attempts_bound_counterexample :
    (executeRequest c8Config "GET" "/parts/x" none).attemptsMade = 1 ∧
    c8Config.retryStrategy.getMaxAttempts = 0 ∧
    (executeRequest c8Config "GET" "/parts/x" none).attemptsMade >
      c8Config.retryStrategy.getMaxAttempts := by
  refine ⟨?_, rfl, ?_⟩ <;>
    simp [executeRequest, executeRequestLoop, attemptOnce, c8Config,
      ExponentialBackoffRetryStrategy, retryShouldRetry, NoAuthStrategy]

/-- Claim C8 as amended: for every operation executed by the orchestrator
with any of the shipped retry strategies, the transport is invoked at most
max(1, getMaxAttempts()) times per call to `executeRequest` (the bound
getMaxAttempts() itself holds whenever the configured maximum is at least 1,
which includes all shipped defaults; the no-retry strategy is bounded by
its maximum of 1). -/
theorem c8_attempts_bound_amended (m b M d : Nat)
    (tr : Nat → HttpRequestOptions → TransportOutcome) (auth : Headers → Headers)
    (tf : JsValue → JsValue) (base method path : String) (body : Option JsValue) :
    (executeRequest ⟨base, tr, ExponentialBackoffRetryStrategy m b M, auth, tf⟩
      method path body).attemptsMade ≤ max 1 m ∧
    (executeRequest ⟨base, tr, FixedDelayRetryStrategy m d, auth, tf⟩
      method path body).attemptsMade ≤ max 1 m ∧
    (executeRequest ⟨base, tr, NoRetryStrategy, auth, tf⟩
      method path body).attemptsMade ≤ 1 := by
  refine ⟨?_, ?_, ?_⟩
  · simpa [executeRequest, ExponentialBackoffRetryStrategy] using
      executeRequestLoop_attempts_le
        ⟨base, tr, ExponentialBackoffRetryStrategy m b M, auth, tf⟩ method path body 1
  · simpa [executeRequest, FixedDelayRetryStrategy] using
      executeRequestLoop_attempts_le
        ⟨base, tr, FixedDelayRetryStrategy m d, auth, tf⟩ method path body 1
  · simpa [executeRequest, NoRetryStrategy] using
      executeRequestLoop_attempts_le
        ⟨base, tr, NoRetryStrategy, auth, tf⟩ method path body 1

/-! ## Claim C1: the three-503-then-200 scenario -/

/-- Counterexample to claim C1: with exponential backoff configured with
maxAttempts = 3 and a transport yielding three consecutive 503 responses then
a 200, `executeRequest` makes 3 transport attempts, not 4 — shouldRetry(3, e)
is false because the attempt number has reached maxAttempts, so the 200 is
never requested. -/
theorem c1_four_attempts_counterexample :
    (executeRequest c1Config "GET" "/parts/abc" none).attemptsMade = 3 ∧
    (executeRequest c1Config "GET" "/parts/abc" none).attemptsMade ≠ 4 ∧
    (executeRequest c1Config "GET" "/parts/abc" none).result =
      .error (.apiError "API request failed: 503 Service Unavailable" (some 503)
        (some "Service Unavailable")) := by
  refine ⟨?_, ?_, ?_⟩ <;>
    simp [executeRequest, executeRequestLoop, attemptOnce, c1Config, c1Transport,
      ExponentialBackoffRetryStrategy, retryShouldRetry, NoAuthStrategy,
      mkApiErrorMessage] <;> rfl

/-- Claim C1 as amended: in that scenario `executeRequest` makes 3 transport
attempts in total, sleeps 1000 ms between attempts 1 and 2 and 2000 ms
between attempts 2 and 3, and then surfaces the 503 status failure as an
APIError (the 200 response is never obtained). -/
theorem c1_exponential_backoff_amended :
    (executeRequest c1Config "GET" "/parts/abc" none).attemptsMade = 3 ∧
    (executeRequest c1Config "GET" "/parts/abc" none).sleeps = [1000, 2000] ∧
    (executeRequest c1Config "GET" "/parts/abc" none).result =
      .error (.apiError "API request failed: 503 Service Unavailable" (some 503)
        (some "Service Unavailable")) := by
  refine ⟨?_, ?_, ?_⟩ <;>
    simp [executeRequest, executeRequestLoop, attemptOnce, c1Config, c1Transport,
      ExponentialBackoffRetryStrategy, retryShouldRetry, NoAuthStrategy,
      mkApiErrorMessage] <;> rfl

/-! ## Claim C2: getPartById and the createdAt field -/

/-- Claim C2 evaluated on the code: `getPartById` against a transport whose
200 body carries createdAt = "2024-01-01T00:00:00Z" returns a record whose
createdAt is the EMPTY PLAIN OBJECT, not a date value: the date-fields pass
of the transformer stores `new Date(...)`, and the recursive entries pass
then spreads that Date into an empty object.  The final conjunct shows the
timestamp the Date would have carried (1704067200000 ms). -/
theorem c2_getPartById_createdAt_empty_object :
    (getPartById c2Config "abc").result =
      .ok (.vObj [("id", .vStr "abc"), ("createdAt", .vObj [])]) ∧
    (getPartById c2Config "abc").attemptsMade = 1 ∧
    jsDateParse "2024-01-01T00:00:00Z" = some 1704067200000 := by
  refine ⟨?_, ?_, by decide⟩ <;>
    simp [getPartById, executeRequest, executeRequestLoop, attemptOnce,
      c2Config, c2Transport, ExponentialBackoffRetryStrategy, retryShouldRetry,
      NoAuthStrategy, transform, transformFields, transformedDate, dateFields,
      JsValue.isTruthyString, JsValue.isTruthyObject] <;> decide

/-! ## Claim C4: unparseable date strings -/

/-- Claim C4 evaluated on the code: a designated date field whose string
value does not parse as a date is NOT left in its original string form:
`new Date("not-a-date")` does not throw (the catch block is unreachable) but
yields an Invalid Date, which the recursive entries pass then spreads into an
empty plain object.  No error is raised (the embedding is total), but the
field ends up as \x7b\x7d rather than the original string. -/
theorem c4_unparseable_date_not_kept :
    transform (.vObj [("createdAt", .vStr "not-a-date")]) =
      .vObj [("createdAt", .vObj [])] ∧
    jsDateParse "not-a-date" = none := by
  refine ⟨?_, by decide⟩
  simp [transform, transformFields, transformedDate, dateFields,
    JsValue.isTruthyString]
  decide

/-! ## Claim C9: authentication strategies as header-map functions -/

/-- Looking up a key other than the one being set is unaffected by the
mapped in-place overwrite. -/
theorem lookupHeader_overwrite_ne (hs : Headers) (key val k : String)
    (h : k ≠ key) :
    lookupHeader (hs.map fun p => if p.1 = key then (key, val) else p) k =
      lookupHeader hs k := by
  induction hs with
  | nil => rfl
  | cons p rest ih =>
    obtain ⟨a, b⟩ := p
    by_cases hp : a = key
    · subst hp
      simp [lookupHeader, Ne.symm h, ih]
    · by_cases hk : a = k
      · simp [lookupHeader, hp, hk, h, ih]
      · simp [lookupHeader, hp, hk, ih]

/-- Looking up a key other than the one being appended is unaffected by the
append. -/
theorem lookupHeader_append_ne (hs : Headers) (key val k : String)
    (h : k ≠ key) :
    lookupHeader (hs ++ [(key, val)]) k = lookupHeader hs k := by
  induction hs with
  | nil => simp [lookupHeader, Ne.symm h]
  | cons p rest ih =>
    obtain ⟨a, b⟩ := p
    by_cases hk : a = k <;> simp [lookupHeader, hk, ih]

/-- Reading back the overwritten key when some entry holds it. -/
theorem lookupHeader_overwrite_self (hs : Headers) (key val : String)
    (ha : (hs.any fun p => p.1 = key) = true) :
    lookupHeader (hs.map fun p => if p.1 = key then (key, val) else p) key =
      some val := by
  induction hs with
  | nil => simp at ha
  | cons p rest ih =>
    obtain ⟨a, b⟩ := p
    by_cases hp : a = key
    · subst hp
      simp [lookupHeader]
    · rw [List.any_cons] at ha
      have hd : (decide ((a, b).1 = key)) = false := by simp [hp]
      rw [hd, Bool.false_or] at ha
      simp [lookupHeader, hp, ih ha]

/-- Reading back the appended key when no entry holds it. -/
theorem lookupHeader_append_self (hs : Headers) (key val : String)
    (ha : (hs.any fun p => p.1 = key) = false) :
    lookupHeader (hs ++ [(key, val)]) key = some val := by
  induction hs with
  | nil => simp [lookupHeader]
  | cons p rest ih =>
    obtain ⟨a, b⟩ := p
    by_cases hp : a = key
    · simp [hp] at ha
    · rw [List.any_cons] at ha
      have hd : (decide ((a, b).1 = key)) = false := by simp [hp]
      rw [hd, Bool.false_or] at ha
      simp [lookupHeader, hp, ih ha]

/-- Frame property of the JS spread update: every key other than the one
being set reads the same before and after `setHeader`. -/
theorem lookupHeader_setHeader_ne (hs : Headers) (key val k : String)
    (h : k ≠ key) :
    lookupHeader (setHeader hs key val) k = lookupHeader hs k := by
  unfold setHeader
  by_cases ha : (hs.any fun p => p.1 = key) = true
  · rw [if_pos ha]
    exact lookupHeader_overwrite_ne hs key val k h
  · rw [if_neg ha]
    exact lookupHeader_append_ne hs key val k h

/-- Reading back the key just set by `setHeader` yields the new value. -/
theorem lookupHeader_setHeader_self (hs : Headers) (key val : String) :
    lookupHeader (setHeader hs key val) key = some val := by
  unfold setHeader
  by_cases ha : (hs.any fun p => p.1 = key) = true
  · rw [if_pos ha]
    exact lookupHeader_overwrite_self hs key val ha
  · rw [if_neg ha]
    refine lookupHeader_append_self hs key val ?_
    cases hax : (hs.any fun p => p.1 = key) with
    | true => exact absurd hax ha
    | false => rfl

/-- Counterexample to claim C9: `BasicAuthStrategy.authenticate` computes
`btoa` of user:pass on every call, and `btoa` throws on characters above
U+00FF, so a basic strategy whose username is "Ω" fails for the empty header
map (and for every other header map) — authenticate CAN fail. -/
theorem c9_basic_auth_counterexample :
    BasicAuthStrategy "Ω" "pw" [] = none := by decide

/-- Claim C9 as amended: the none, bearer-token and API-key strategies never
fail, and basic cannot fail provided every character of user:pass is at most
U+00FF (otherwise `btoa` throws, independently of the header map); in every
non-failing case `authenticate` returns a new map that agrees with the input
on every key except the single credential header the variant adds, with the
none variant returning the input unchanged. -/
theorem c9_auth_frame_amended (h : Headers)
    (token apiKey headerName username password k : String)
    (hcred : ((username ++ ":" ++ password).data.all fun c => c.toNat ≤ 255) = true) :
    NoAuthStrategy h = h ∧
    lookupHeader (BearerTokenAuthStrategy token h) "Authorization" =
      some ("Bearer " ++ token) ∧
    (k ≠ "Authorization" →
      lookupHeader (BearerTokenAuthStrategy token h) k = lookupHeader h k) ∧
    lookupHeader (ApiKeyAuthStrategy apiKey headerName h) headerName = some apiKey ∧
    (k ≠ headerName →
      lookupHeader (ApiKeyAuthStrategy apiKey headerName h) k = lookupHeader h k) ∧
    ∃ h2, BasicAuthStrategy username password h = some h2 ∧
      lookupHeader h2 "Authorization" =
        some ("Basic " ++
          base64encode ((username ++ ":" ++ password).data.map Char.toNat)) ∧
      ∀ k2, k2 ≠ "Authorization" → lookupHeader h2 k2 = lookupHeader h k2 := by
  refine ⟨rfl, lookupHeader_setHeader_self h "Authorization" _,
    fun hk => lookupHeader_setHeader_ne h "Authorization" _ k hk,
    lookupHeader_setHeader_self h headerName _,
    fun hk => lookupHeader_setHeader_ne h headerName _ k hk,
    setHeader h "Authorization"
      ("Basic " ++ base64encode ((username ++ ":" ++ password).data.map Char.toNat)),
    ?_, lookupHeader_setHeader_self h "Authorization" _,
    fun k2 hk2 => lookupHeader_setHeader_ne h "Authorization" _ k2 hk2⟩
  unfold BasicAuthStrategy btoa
  rw [if_pos hcred]
  rfl

/-- Witness for C9 as amended, at a concrete header map and Latin-1
credentials. -/
theorem c9_auth_frame_amended_witness :
    NoAuthStrategy [("Accept", "application/json")] = [("Accept", "application/json")] ∧
    lookupHeader (BearerTokenAuthStrategy "tok" [("Accept", "application/json")])
      "Authorization" = some ("Bearer " ++ "tok") ∧
    ("Accept" ≠ "Authorization" →
      lookupHeader (BearerTokenAuthStrategy "tok" [("Accept", "application/json")])
        "Accept" = lookupHeader [("Accept", "application/json")] "Accept") ∧
    lookupHeader (ApiKeyAuthStrategy "secret" "X-API-Key"
      [("Accept", "application/json")]) "X-API-Key" = some "secret" ∧
    ("Accept" ≠ "X-API-Key" →
      lookupHeader (ApiKeyAuthStrategy "secret" "X-API-Key"
        [("Accept", "application/json")]) "Accept" =
        lookupHeader [("Accept", "application/json")] "Accept") ∧
    ∃ h2, BasicAuthStrategy "user" "pass" [("Accept", "application/json")] = some h2 ∧
      lookupHeader h2 "Authorization" =
        some ("Basic " ++
          base64encode ((("user" ++ ":" ++ "pass").data).map Char.toNat)) ∧
      ∀ k2, k2 ≠ "Authorization" →
        lookupHeader h2 k2 = lookupHeader [("Accept", "application/json")] k2 :=
  c9_auth_frame_amended [("Accept", "application/json")] "tok" "secret" "X-API-Key"
    "user" "pass" "Accept" (by decide)

/-! ## Claim C10: percent-encoded id segments -/

/-- Hex digits are never reserved URL characters (the fallback digit is the
character 0, also unreserved). -/
theorem hexDigitChar_not_reserved (n : Nat) :
    urlReservedChars.contains (hexDigitChar n) = false := by
  rcases Nat.lt_or_ge n 16 with hn | hn
  · interval_cases n <;> decide
  · have hd : hexDigitChar n = '0' := by
      unfold hexDigitChar
      rw [List.getD_eq_default]
      have hl : "0123456789ABCDEF".data.length = 16 := by decide
      omega
    rw [hd]
    decide

/-- Hex digits are never reserved URL characters (membership form). -/
theorem hexDigitChar_not_mem (n : Nat) : hexDigitChar n ∉ urlReservedChars := by
  have h := hexDigitChar_not_reserved n
  simpa using h

/-- Characters of percent-escape sequences are never reserved URL
characters. -/
theorem percentEncode_not_mem (bs : List Nat) (c : Char)
    (hc : c ∈ bs.flatMap percentEncodeByte) : c ∉ urlReservedChars := by
  rw [List.mem_flatMap] at hc
  obtain ⟨b, _, hb⟩ := hc
  simp only [percentEncodeByte, List.mem_cons, List.not_mem_nil,
    or_false] at hb
  rcases hb with rfl | rfl | rfl
  · decide
  · exact hexDigitChar_not_mem _
  · exact hexDigitChar_not_mem _

/-- An unescaped character of `encodeURIComponent` output is never a
reserved URL character: each reserved character fails the unescaped test. -/
theorem isUnescapedUriChar_not_mem (c : Char)
    (h : isUnescapedUriChar c = true) : c ∉ urlReservedChars := by
  intro hm
  simp only [urlReservedChars, List.mem_cons, List.not_mem_nil, or_false] at hm
  rcases hm with rfl | rfl | rfl | rfl | rfl | rfl <;>
    simp [isUnescapedUriChar, uriMarks] at h

/-- Every character of `encodeURIComponent` output avoids the reserved URL
characters. -/
theorem encodeURIComponent_no_reserved (s : String) :
    ((encodeURIComponent s).data.all fun c => !urlReservedChars.contains c) =
      true := by
  rw [List.all_eq_true]
  intro c hc
  have hnm : c ∉ urlReservedChars := by
    unfold encodeURIComponent at hc
    rw [show (String.mk (s.data.flatMap fun c =>
        if isUnescapedUriChar c then [c]
        else (utf8Bytes c).flatMap percentEncodeByte)).data =
        s.data.flatMap (fun c =>
          if isUnescapedUriChar c then [c]
          else (utf8Bytes c).flatMap percentEncodeByte) from rfl] at hc
    rw [List.mem_flatMap] at hc
    obtain ⟨d, _, hd⟩ := hc
    by_cases hu : isUnescapedUriChar d = true
    · rw [if_pos hu] at hd
      simp only [List.mem_cons, List.not_mem_nil, or_false] at hd
      subst hd
      exact isUnescapedUriChar_not_mem _ hu
    · rw [if_neg hu] at hd
      exact percentEncode_not_mem _ c hd
  cases hcont : urlReservedChars.contains c with
  | false => rfl
  | true =>
    exact absurd (by simpa using hcont) hnm

/-- Claim C10: `getPartById`, `updatePart` and `deletePart` build the request
path as "/parts/" followed by `encodeURIComponent` of the id, and the encoded
segment never contains a reserved URL character such as a slash, question
mark, ampersand, equals sign, hash or space — so an id cannot change the
route or inject query parameters. -/
theorem c10_path_percent_encoding (cfg : PartsAPIClientConfig) (id : String)
    (dto : JsValue) :
    getPartById cfg id =
      executeRequest cfg "GET" ("/parts/" ++ encodeURIComponent id) none ∧
    updatePart cfg id dto =
      executeRequest cfg "PUT" ("/parts/" ++ encodeURIComponent id) (some dto) ∧
    deletePart cfg id =
      executeRequest cfg "DELETE" ("/parts/" ++ encodeURIComponent id) none ∧
    ((encodeURIComponent id).data.all fun c => !urlReservedChars.contains c) =
      true :=
  ⟨rfl, rfl, rfl, encodeURIComponent_no_reserved id⟩
